import Mathlib

/-!
Verification of `mycodo/outputs/pcf8574.py` (PCF8574 8-channel output module).

Shallow embedding conventions:
* A Python channel-state value (`None` / `True` / `False`) is `Option Bool`,
  with `none` standing for Python `None` ("unknown").
* The state file is a `List String` of its lines with the trailing newline
  already stripped (the reader strips it with `line[:-1]`, the writer appends
  it with `'{}\n'.format(...)`), or `Option.none` when the file is absent.
* Machine bytes are `Nat` (the packing loop only ever sets bits 0..7, so the
  value stays below 256; no overflow arises).
* Fault injection: lock acquisition, the state-file write and the bus byte
  write can each fail; an `Env` record of booleans says which succeed.
  Exceptions are modelled with an explicit escape channel (`Option PyExc`);
  `output_switch` wraps its body in `except Exception`, so the channel is
  `none` on every path, mirroring the source.
-/

namespace Pcf8574

/-- Python truthiness of a channel-state value (`if val:`):
`None` is falsy, a `bool` is itself. -/
def truthy : Option Bool → Bool
  | none => false
  | some b => b

/-- `PCF8574.port` setter packing loop:
`for i, val in enumerate(value): if val: new_state |= 1 << 7 - i`. -/
def portByte (value : List (Option Bool)) : Nat :=
  value.enum.foldl
    (fun new_state iv =>
      if truthy iv.2 then new_state ||| (1 <<< (7 - iv.1)) else new_state)
    0

/-- `PCF8574.port` setter: asserts the value is a list of length 8, packs it
into one byte and issues a single `write_byte`.  Returns the list of bytes
written to the bus, or `none` when the length assertion fails
(`AssertionError`). -/
def port_setter (value : List (Option Bool)) : Option (List Nat) :=
  if value.length = 8 then some [portByte value] else none

/-- `'{}\n'.format(write_state)` without the newline: Python `str()` of a
channel-state value. -/
def str_state : Option Bool → String
  | none => "None"
  | some true => "True"
  | some false => "False"

/-- The read loop of `output_switch`: parse the state-file lines in order,
recognising the tokens `None`/`True`/`False` and skipping any other line. -/
def read_states : List String → List (Option Bool)
  | [] => []
  | l :: ls =>
    if l = "None" then none :: read_states ls
    else if l = "True" then some true :: read_states ls
    else if l = "False" then some false :: read_states ls
    else read_states ls

/-- `list_states` after the read phase: parse the file if it exists,
otherwise `[None for _ in range(8)]`. -/
def loaded : Option (List String) → List (Option Bool)
  | some lines => read_states lines
  | none => List.replicate 8 none

/-- Errors logged via `self.logger.error` in `output_switch`. -/
inductive LogErr where
  | noChannel    -- "Output channel needs to be specified"
  | badLength    -- "State list does ot contain 8 elements"
  | badState     -- "Unrecognized state: ..."
  | stateChange  -- "State change error: ..." (the catch-all handler)
  deriving DecidableEq, Repr

/-- Exceptions that could escape a call (none ever does: the source wraps the
body in `except Exception`). -/
inductive PyExc where
  | ioError
  | busError
  | assertionError
  deriving DecidableEq, Repr

/-- Configuration of one `OutputModule` instance: `self.channel` (the module's
1-based channel option `'1'..'8'`, `none` when never configured) and
`self.output_on_state`. -/
structure Config where
  channel : Option Nat
  output_on_state : Bool
  deriving DecidableEq, Repr

/-- Fault scenario for one call: does `lock_acquire` succeed within its
timeout, does the state-file write succeed, does the bus `write_byte`
succeed. -/
structure Env where
  lock_ok : Bool
  write_ok : Bool
  bus_ok : Bool
  deriving DecidableEq, Repr

/-- Observable state threaded through a call: `self.output_state`, the state
file (`none` when absent), the sequence of bytes written to the bus, and the
errors logged. -/
structure St where
  output_state : Option Bool
  file : Option (List String)
  bus_writes : List Nat
  logs : List LogErr
  deriving DecidableEq, Repr

/-- `OutputModule.output_switch(state)`: returns the state after the call and
the exception escaping to the caller (always `none`: every failure is caught
and logged). -/
def output_switch (cfg : Config) (env : Env) (state : String) (s : St) :
    St × Option PyExc :=
  match cfg.channel with
  | none => ({ s with logs := s.logs ++ [LogErr.noChannel] }, none)
  | some channel =>
    if env.lock_ok then
      -- body under the lock; the finally releases the lock on every path and
      -- the outer `except Exception` catches anything raised below
      let list_states := loaded s.file
      if list_states.length ≠ 8 then
        ({ s with logs := s.logs ++ [LogErr.badLength] }, none)
      else
        match (if state = "on" then some cfg.output_on_state
               else if state = "off" then some (!cfg.output_on_state)
               else none) with
        | none => ({ s with logs := s.logs ++ [LogErr.badState] }, none)
        | some new_state =>
          -- self.output_state is assigned before any write is attempted
          let s1 : St := { s with output_state := some new_state }
          -- only manipulate single channel in list
          let list2 := list_states.set (channel - 1) (some new_state)
          if env.write_ok then
            let s2 : St := { s1 with file := some (list2.map str_state) }
            match port_setter list2 with
            | some bytes =>
              if env.bus_ok then
                ({ s2 with bus_writes := s2.bus_writes ++ bytes }, none)
              else
                -- write_byte raised; caught and logged
                ({ s2 with logs := s2.logs ++ [LogErr.stateChange] }, none)
            | none =>
              -- AssertionError from the port setter; caught and logged
              ({ s2 with logs := s2.logs ++ [LogErr.stateChange] }, none)
          else
            -- file write raised; caught and logged
            ({ s1 with logs := s1.logs ++ [LogErr.stateChange] }, none)
    else
      -- lock_acquire returned falsy: the guarded block is skipped silently
      (s, none)

/-- `OutputModule.is_on`: returns `self.output_state` when the output is set
up, Python `None` otherwise. -/
def is_on (output_setup : Bool) (s : St) : Option Bool :=
  if output_setup then s.output_state else none

/-- The channel-state vector recorded in the durable file, as the next read
would load it (empty when the file is absent). -/
def committed : Option (List String) → List (Option Bool)
  | some lines => read_states lines
  | none => []

end Pcf8574

namespace Pcf8574

/-! ### Helper lemmas -/

set_option maxRecDepth 4000 in
/-- Bit content of the packed byte, brute-forced over all `Bool` assignments:
slot `i` of the list lands in bit `7 - i`. -/
theorem portByte_pack_bits : ∀ t0 t1 t2 t3 t4 t5 t6 t7 : Bool, ∀ i, i < 8 →
    (portByte [some t0, some t1, some t2, some t3,
               some t4, some t5, some t6, some t7]).testBit (7-i)
      = [t0,t1,t2,t3,t4,t5,t6,t7].getD i false := by decide

/-- `portByte` only looks at Python truthiness of the entries. -/
theorem portByte_truthy_norm (a0 a1 a2 a3 a4 a5 a6 a7 : Option Bool) :
    portByte [a0,a1,a2,a3,a4,a5,a6,a7]
      = portByte [some (truthy a0), some (truthy a1), some (truthy a2), some (truthy a3),
                  some (truthy a4), some (truthy a5), some (truthy a6), some (truthy a7)] := rfl

/-- Bit `7 - i` of the packed byte is the truthiness of slot `i`. -/
theorem portByte_testBit_eight (a0 a1 a2 a3 a4 a5 a6 a7 : Option Bool)
    (i : Nat) (hi : i < 8) :
    (portByte [a0,a1,a2,a3,a4,a5,a6,a7]).testBit (7-i)
      = truthy ([a0,a1,a2,a3,a4,a5,a6,a7].getD i none) := by
  rw [portByte_truthy_norm]
  rw [portByte_pack_bits (truthy a0) (truthy a1) (truthy a2) (truthy a3)
      (truthy a4) (truthy a5) (truthy a6) (truthy a7) i hi]
  interval_cases i <;> rfl

/-- A list of length 8 is a literal 8-element list. -/
theorem eight_elems {α : Type} (v : List α) (h : v.length = 8) :
    ∃ a0 a1 a2 a3 a4 a5 a6 a7, v = [a0,a1,a2,a3,a4,a5,a6,a7] := by
  rcases v with _ | ⟨a0, _ | ⟨a1, _ | ⟨a2, _ | ⟨a3, _ | ⟨a4, _ | ⟨a5, _ | ⟨a6, _ | ⟨a7, _ | ⟨a8, t⟩⟩⟩⟩⟩⟩⟩⟩⟩ <;>
    simp_all

/-- Round trip of the durable-state encoding: parsing the written tokens
recovers the vector. -/
theorem read_states_map_str (v : List (Option Bool)) :
    read_states (v.map str_state) = v := by
  induction v with
  | nil => rfl
  | cons a t ih =>
    rcases a with _ | b
    · simp [read_states, str_state, ih]
    · cases b <;> simp [read_states, str_state, ih]

/-- Setting one slot of an 8-element list leaves every other slot unchanged. -/
theorem getD_set_ne {α : Type} (l : List α) (hl : l.length = 8) (k j : Nat)
    (hk : k < 8) (hj : j < 8) (hne : j ≠ k) (x d : α) :
    (l.set k x).getD j d = l.getD j d := by
  obtain ⟨a0,a1,a2,a3,a4,a5,a6,a7,rfl⟩ := eight_elems l hl
  interval_cases k <;> interval_cases j <;> first | rfl | omega

/-- Setting slot `k` of an 8-element list makes slot `k` the new value. -/
theorem getD_set_self {α : Type} (l : List α) (hl : l.length = 8) (k : Nat)
    (hk : k < 8) (x d : α) :
    (l.set k x).getD k d = x := by
  obtain ⟨a0,a1,a2,a3,a4,a5,a6,a7,rfl⟩ := eight_elems l hl
  interval_cases k <;> rfl

/-- Reduction of `output_switch` on the all-success path: the requested state
is stored in memory, the updated vector is serialized to the file, its packed
byte is the single new bus write, and no exception escapes. -/
theorem output_switch_success (ch : Nat) (onst : Bool) (state : String) (s : St)
    (ns : Bool)
    (hns : (if state = "on" then some onst
            else if state = "off" then some (!onst) else none) = some ns)
    (hlen : (loaded s.file).length = 8) :
    output_switch ⟨some ch, onst⟩ ⟨true, true, true⟩ state s =
      ({ s with output_state := some ns,
                file := some (((loaded s.file).set (ch - 1) (some ns)).map str_state),
                bus_writes :=
                  s.bus_writes ++ [portByte ((loaded s.file).set (ch - 1) (some ns))] },
       none) := by
  simp only [output_switch, hns, hlen, port_setter, List.length_set]
  simp

/-- Reduction of `output_switch` when the lock is held but the durable record
does not parse to exactly 8 entries: a length error is logged and the call
returns, touching nothing. -/
theorem output_switch_badLength (ch : Nat) (onst : Bool) (env : Env)
    (state : String) (s : St)
    (hlock : env.lock_ok = true)
    (hlen : (loaded s.file).length ≠ 8) :
    output_switch ⟨some ch, onst⟩ env state s
      = ({ s with logs := s.logs ++ [LogErr.badLength] }, none) := by
  simp [output_switch, hlock, hlen]

/-- Reduction of `output_switch` when the state-file write raises: the new
state is already stored in memory, the exception is caught and logged, and
nothing reaches the file or the bus. -/
theorem output_switch_write_fail (ch : Nat) (onst : Bool) (b : Bool)
    (state : String) (s : St) (ns : Bool)
    (hns : (if state = "on" then some onst
            else if state = "off" then some (!onst) else none) = some ns)
    (hlen : (loaded s.file).length = 8) :
    output_switch ⟨some ch, onst⟩ ⟨true, false, b⟩ state s
      = ({ s with output_state := some ns,
                  logs := s.logs ++ [LogErr.stateChange] }, none) := by
  simp [output_switch, hns, hlen]

/-- Reduction of `output_switch` when the bus `write_byte` raises: the new
state is already stored in memory and the new vector already persisted, the
exception is caught and logged, and no byte reaches the bus. -/
theorem output_switch_bus_fail (ch : Nat) (onst : Bool)
    (state : String) (s : St) (ns : Bool)
    (hns : (if state = "on" then some onst
            else if state = "off" then some (!onst) else none) = some ns)
    (hlen : (loaded s.file).length = 8) :
    output_switch ⟨some ch, onst⟩ ⟨true, true, false⟩ state s
      = ({ s with output_state := some ns,
                  file := some (((loaded s.file).set (ch - 1) (some ns)).map str_state),
                  logs := s.logs ++ [LogErr.stateChange] }, none) := by
  simp [output_switch, hns, hlen, port_setter, List.length_set]

/-! ### Claims -/

/-- C1: Writing a full 8-element port vector packs it into one byte MSB-first:
for every 8-element boolean vector `v`, the byte written to the bus has bit
`7 - i` set iff `v[i]` is true (index 0 ↦ bit 7, index 7 ↦ bit 0), and exactly
one byte write is issued. -/
theorem port_write_packs_msb_first (v : List Bool) (h : v.length = 8)
    (i : Nat) (hi : i < 8) :
    port_setter (v.map some) = some [portByte (v.map some)] ∧
    (portByte (v.map some)).testBit (7 - i) = v.getD i false := by
  obtain ⟨a0,a1,a2,a3,a4,a5,a6,a7,rfl⟩ := eight_elems v h
  refine ⟨by simp [port_setter], ?_⟩
  rw [show ([a0,a1,a2,a3,a4,a5,a6,a7].map some)
        = [some a0, some a1, some a2, some a3, some a4, some a5, some a6, some a7] from rfl]
  rw [portByte_testBit_eight (some a0) (some a1) (some a2) (some a3)
      (some a4) (some a5) (some a6) (some a7) i hi]
  interval_cases i <;> rfl

/-- C1 witness: the theorem applied at `v = [true,false,...,false]`, `i = 0`. -/
theorem port_write_packs_msb_first_witness :
    ([true,false,false,false,false,false,false,false] : List Bool).length = 8 ∧
    (0 : Nat) < 8 ∧
    (port_setter (([true,false,false,false,false,false,false,false] : List Bool).map some)
        = some [portByte (([true,false,false,false,false,false,false,false] : List Bool).map some)] ∧
      (portByte (([true,false,false,false,false,false,false,false] : List Bool).map some)).testBit (7 - 0)
        = ([true,false,false,false,false,false,false,false] : List Bool).getD 0 false) :=
  ⟨by decide, by decide,
    port_write_packs_msb_first [true,false,false,false,false,false,false,false]
      (by decide) 0 (by decide)⟩

/-- C7: Round trip of the durable-state encoding: for every 8-slot vector with
each slot `Unknown`/`true`/`false`, serializing it to the one-token-per-line
format and deserializing yields the identical vector. -/
theorem state_encoding_round_trip (v : List (Option Bool)) (h : v.length = 8) :
    read_states (v.map str_state) = v :=
  read_states_map_str v

/-- C7 witness: the theorem applied at a concrete mixed vector. -/
theorem state_encoding_round_trip_witness :
    ([none, some true, some false, none, some true, some false, none, some true]
        : List (Option Bool)).length = 8 ∧
    read_states (([none, some true, some false, none, some true, some false, none, some true]
        : List (Option Bool)).map str_state)
      = [none, some true, some false, none, some true, some false, none, some true] :=
  ⟨by decide,
    state_encoding_round_trip
      [none, some true, some false, none, some true, some false, none, some true]
      (by decide)⟩

/-- C2: for every channel `ch` (module option 1..8, slot `ch - 1`) and every
prior committed state, a successful `output_switch` leaves the persisted slot
of every other channel `j` unchanged, and the single byte written to the bus
carries, at bit `7 - j`, exactly the truthiness the slot had before the
call. -/
theorem output_switch_frame
    (ch : Nat) (h1 : 1 ≤ ch) (h2 : ch ≤ 8) (onst : Bool)
    (state : String) (hs : state = "on" ∨ state = "off")
    (s : St) (hlen : (loaded s.file).length = 8)
    (j : Nat) (hj : j < 8) (hne : j ≠ ch - 1)
    (r : St × Option PyExc)
    (hr : r = output_switch ⟨some ch, onst⟩ ⟨true, true, true⟩ state s) :
    (committed r.1.file).getD j none = (loaded s.file).getD j none ∧
    ∃ b, r.1.bus_writes = s.bus_writes ++ [b] ∧
      b.testBit (7 - j) = truthy ((loaded s.file).getD j none) := by
  have hns : (if state = "on" then some onst
      else if state = "off" then some (!onst) else none)
        = some (if state = "on" then onst else !onst) := by
    rcases hs with rfl | rfl <;> simp
  rw [output_switch_success ch onst state s _ hns hlen] at hr
  subst hr
  have hsetlen : ((loaded s.file).set (ch - 1)
      (some (if state = "on" then onst else !onst))).length = 8 := by
    simp [List.length_set, hlen]
  constructor
  · show (committed (some ((((loaded s.file).set (ch - 1) _)).map str_state))).getD j none = _
    show (read_states ((((loaded s.file).set (ch - 1) _)).map str_state)).getD j none = _
    rw [read_states_map_str]
    exact getD_set_ne (loaded s.file) hlen (ch - 1) j (by omega) hj hne _ _
  · refine ⟨portByte ((loaded s.file).set (ch - 1)
        (some (if state = "on" then onst else !onst))), rfl, ?_⟩
    obtain ⟨a0,a1,a2,a3,a4,a5,a6,a7,hL⟩ :=
      eight_elems ((loaded s.file).set (ch - 1)
        (some (if state = "on" then onst else !onst))) hsetlen
    rw [hL, portByte_testBit_eight a0 a1 a2 a3 a4 a5 a6 a7 j hj, ← hL,
      getD_set_ne (loaded s.file) hlen (ch - 1) j (by omega) hj hne _ _]

/-- C2 witness: channel 1 switched on over a fully known prior file; slot 1 is
untouched. -/
theorem output_switch_frame_witness :
    (committed (output_switch ⟨some 1, true⟩ ⟨true, true, true⟩ "on"
        ⟨none, some ["True","False","None","True","False","None","True","False"], [], []⟩).1.file).getD 1 none
      = (loaded (some ["True","False","None","True","False","None","True","False"])).getD 1 none ∧
    ∃ b, (output_switch ⟨some 1, true⟩ ⟨true, true, true⟩ "on"
        ⟨none, some ["True","False","None","True","False","None","True","False"], [], []⟩).1.bus_writes
      = ([] : List Nat) ++ [b] ∧
      b.testBit (7 - 1)
        = truthy ((loaded (some ["True","False","None","True","False","None","True","False"])).getD 1 none) :=
  output_switch_frame 1 (by decide) (by decide) true "on" (Or.inl rfl)
    ⟨none, some ["True","False","None","True","False","None","True","False"], [], []⟩
    (by decide) 1 (by decide) (by decide) _ rfl

/-- C3 counterexample: with `on_state = false`, a successful switch-on of
channel 1 on a fresh device commits physical `false` to slot 0 as claimed, but
`is_on` then reports `some false`, not `some true`: `output_state` stores the
physical level and `is_on` returns it unmapped. -/
theorem is_on_inverted_polarity_cex :
    (output_switch ⟨some 1, false⟩ ⟨true, true, true⟩ "on" ⟨none, none, [], []⟩).2 = none ∧
    (committed (output_switch ⟨some 1, false⟩ ⟨true, true, true⟩ "on"
        ⟨none, none, [], []⟩).1.file).getD 0 none = some false ∧
    is_on true (output_switch ⟨some 1, false⟩ ⟨true, true, true⟩ "on"
        ⟨none, none, [], []⟩).1 = some false ∧
    ¬ is_on true (output_switch ⟨some 1, false⟩ ⟨true, true, true⟩ "on"
        ⟨none, none, [], []⟩).1 = some true := by decide

/-- C3 amended: with `onLevel = false` (`on_state = false`), a successful
switch-on writes the physical bit `false` into the channel's slot and onto the
wire, and a subsequent `is_on` returns `false` — the stored physical level,
not the logical state. -/
theorem is_on_inverted_polarity
    (ch : Nat) (h1 : 1 ≤ ch) (h2 : ch ≤ 8) (s : St)
    (hlen : (loaded s.file).length = 8)
    (r : St × Option PyExc)
    (hr : r = output_switch ⟨some ch, false⟩ ⟨true, true, true⟩ "on" s) :
    r.2 = none ∧
    (committed r.1.file).getD (ch - 1) none = some false ∧
    (∃ b, r.1.bus_writes = s.bus_writes ++ [b] ∧ b.testBit (7 - (ch - 1)) = false) ∧
    is_on true r.1 = some false := by
  rw [output_switch_success ch false "on" s false rfl hlen] at hr
  subst hr
  have hsetlen : ((loaded s.file).set (ch - 1) (some false)).length = 8 := by
    simp [List.length_set, hlen]
  refine ⟨rfl, ?_, ?_, rfl⟩
  · show (read_states (((loaded s.file).set (ch - 1) (some false)).map str_state)).getD
        (ch - 1) none = some false
    rw [read_states_map_str]
    exact getD_set_self (loaded s.file) hlen (ch - 1) (by omega) _ _
  · refine ⟨portByte ((loaded s.file).set (ch - 1) (some false)), rfl, ?_⟩
    obtain ⟨a0,a1,a2,a3,a4,a5,a6,a7,hL⟩ :=
      eight_elems ((loaded s.file).set (ch - 1) (some false)) hsetlen
    rw [hL, portByte_testBit_eight a0 a1 a2 a3 a4 a5 a6 a7 (ch - 1) (by omega), ← hL,
      getD_set_self (loaded s.file) hlen (ch - 1) (by omega) _ _]
    rfl

/-- C3 amended witness: channel 1 on a fresh device. -/
theorem is_on_inverted_polarity_witness :
    (output_switch ⟨some 1, false⟩ ⟨true, true, true⟩ "on" ⟨none, none, [], []⟩).2 = none ∧
    (committed (output_switch ⟨some 1, false⟩ ⟨true, true, true⟩ "on"
        ⟨none, none, [], []⟩).1.file).getD (1 - 1) none = some false ∧
    (∃ b, (output_switch ⟨some 1, false⟩ ⟨true, true, true⟩ "on"
        ⟨none, none, [], []⟩).1.bus_writes = ([] : List Nat) ++ [b] ∧
      b.testBit (7 - (1 - 1)) = false) ∧
    is_on true (output_switch ⟨some 1, false⟩ ⟨true, true, true⟩ "on"
        ⟨none, none, [], []⟩).1 = some false :=
  is_on_inverted_polarity 1 (by decide) (by decide) ⟨none, none, [], []⟩
    (by decide) _ rfl

/-- C4 counterexample: on a fresh device with `on_state = true`, switching the
channel that controls slot 3 (module channel option 4) on writes register byte
`0b00010000` as claimed, but the persisted vector keeps the seven untouched
slots as `None` (unknown) — it is not
`[false,false,false,true,false,false,false,false]`. -/
theorem fresh_switch_on_cex :
    (output_switch ⟨some 4, true⟩ ⟨true, true, true⟩ "on" ⟨none, none, [], []⟩).1.bus_writes
      = [16] ∧
    committed (output_switch ⟨some 4, true⟩ ⟨true, true, true⟩ "on"
        ⟨none, none, [], []⟩).1.file
      = [none, none, none, some true, none, none, none, none] ∧
    ¬ committed (output_switch ⟨some 4, true⟩ ⟨true, true, true⟩ "on"
        ⟨none, none, [], []⟩).1.file
      = [some false, some false, some false, some true,
         some false, some false, some false, some false] := by decide

/-- C4 amended: fresh device, no durable record, `on_state = true`: switching
on the channel of slot 3 (module channel option 4) persists the vector
`[Unknown, Unknown, Unknown, true, Unknown, Unknown, Unknown, Unknown]`
(serialized as `None`/`True` tokens) and issues the single register byte write
`0b00010000`, surfacing no error. -/
theorem fresh_switch_on_amended :
    output_switch ⟨some 4, true⟩ ⟨true, true, true⟩ "on" ⟨none, none, [], []⟩
      = ({ output_state := some true,
           file := some ["None","None","None","True","None","None","None","None"],
           bus_writes := [0b00010000], logs := [] }, none) ∧
    committed (output_switch ⟨some 4, true⟩ ⟨true, true, true⟩ "on"
        ⟨none, none, [], []⟩).1.file
      = [none, none, none, some true, none, none, none, none] := by decide

/-- C5 counterexample: a durable record with 7 entries instead of 8 makes
`output_switch` log a length error and return; no exception is surfaced to the
caller (the function returns `None`), so no `CorruptStateError` reaches the
caller — but the code also does not proceed with default states: the file, the
bus and the in-memory state are untouched. -/
theorem corrupt_record_cex :
    (output_switch ⟨some 1, true⟩ ⟨true, true, true⟩ "on"
        ⟨some false, some ["False","False","False","False","False","False","False"], [], []⟩).2
      = none ∧
    (output_switch ⟨some 1, true⟩ ⟨true, true, true⟩ "on"
        ⟨some false, some ["False","False","False","False","False","False","False"], [], []⟩).1
      = { output_state := some false,
          file := some ["False","False","False","False","False","False","False"],
          bus_writes := [], logs := [LogErr.badLength] } := by decide

/-- C5 amended: a durable record that does not deserialize to exactly 8 valid
tokens makes `output_switch` log "State list does ot contain 8 elements" and
return without any write (register or file) and without changing the
in-memory state; no error is surfaced to the caller. It does not silently
proceed with default all-Unknown states. -/
theorem corrupt_record_aborts
    (ch : Nat) (onst : Bool) (env : Env) (state : String) (s : St)
    (hlock : env.lock_ok = true)
    (hlen : (loaded s.file).length ≠ 8)
    (r : St × Option PyExc)
    (hr : r = output_switch ⟨some ch, onst⟩ env state s) :
    r.2 = none ∧
    r.1.output_state = s.output_state ∧
    r.1.file = s.file ∧
    r.1.bus_writes = s.bus_writes ∧
    r.1.logs = s.logs ++ [LogErr.badLength] := by
  rw [output_switch_badLength ch onst env state s hlock hlen] at hr
  subst hr
  exact ⟨rfl, rfl, rfl, rfl, rfl⟩

/-- C5 amended witness: a 7-entry record. -/
theorem corrupt_record_aborts_witness :
    (output_switch ⟨some 1, true⟩ ⟨true, true, true⟩ "on"
        ⟨some false, some ["False","False","False","False","False","False","False"], [], []⟩).2
      = none ∧
    (output_switch ⟨some 1, true⟩ ⟨true, true, true⟩ "on"
        ⟨some false, some ["False","False","False","False","False","False","False"], [], []⟩).1.output_state
      = some false ∧
    (output_switch ⟨some 1, true⟩ ⟨true, true, true⟩ "on"
        ⟨some false, some ["False","False","False","False","False","False","False"], [], []⟩).1.file
      = some ["False","False","False","False","False","False","False"] ∧
    (output_switch ⟨some 1, true⟩ ⟨true, true, true⟩ "on"
        ⟨some false, some ["False","False","False","False","False","False","False"], [], []⟩).1.bus_writes
      = ([] : List Nat) ∧
    (output_switch ⟨some 1, true⟩ ⟨true, true, true⟩ "on"
        ⟨some false, some ["False","False","False","False","False","False","False"], [], []⟩).1.logs
      = ([] : List LogErr) ++ [LogErr.badLength] :=
  corrupt_record_aborts 1 true ⟨true, true, true⟩ "on"
    ⟨some false, some ["False","False","False","False","False","False","False"], [], []⟩
    rfl (by decide) _ rfl

/-- C6 counterexample: channel previously off (`output_state = some false`),
bus write fails during switch-on: no `OutputError` is surfaced (the exception
is caught and logged, the call returns `None`) and the in-memory state has
already been changed to the requested value, so `is_on` reports `some true`
instead of the pre-call `some false`. -/
theorem failed_write_state_changed_cex :
    (output_switch ⟨some 1, true⟩ ⟨true, true, false⟩ "on"
        ⟨some false, some ["False","False","False","False","False","False","False","False"], [], []⟩).2
      = none ∧
    (output_switch ⟨some 1, true⟩ ⟨true, true, false⟩ "on"
        ⟨some false, some ["False","False","False","False","False","False","False","False"], [], []⟩).1.output_state
      = some true ∧
    ¬ (output_switch ⟨some 1, true⟩ ⟨true, true, false⟩ "on"
        ⟨some false, some ["False","False","False","False","False","False","False","False"], [], []⟩).1.output_state
      = some false := by decide

/-- C6 amended: if the persist step or the register write fails,
`output_switch` catches the exception, logs "State change error" and surfaces
nothing to the caller; no byte reaches the bus, but the in-memory logical
state has already been set to the requested value before the I/O, so `is_on`
reports the new requested state, not the pre-call one. -/
theorem failed_write_state_changed
    (ch : Nat) (onst : Bool) (state : String) (s : St) (w b : Bool)
    (hfail : ¬ (w = true ∧ b = true))
    (ns : Bool)
    (hns : (if state = "on" then some onst
            else if state = "off" then some (!onst) else none) = some ns)
    (hlen : (loaded s.file).length = 8)
    (r : St × Option PyExc)
    (hr : r = output_switch ⟨some ch, onst⟩ ⟨true, w, b⟩ state s) :
    r.2 = none ∧
    r.1.output_state = some ns ∧
    is_on true r.1 = some ns ∧
    r.1.bus_writes = s.bus_writes ∧
    r.1.logs = s.logs ++ [LogErr.stateChange] := by
  cases w
  · rw [output_switch_write_fail ch onst b state s ns hns hlen] at hr
    subst hr
    exact ⟨rfl, rfl, rfl, rfl, rfl⟩
  · cases b
    · rw [output_switch_bus_fail ch onst state s ns hns hlen] at hr
      subst hr
      exact ⟨rfl, rfl, rfl, rfl, rfl⟩
    · exact absurd ⟨rfl, rfl⟩ hfail

/-- C6 amended witness: bus failure while switching channel 1 on. -/
theorem failed_write_state_changed_witness :
    (output_switch ⟨some 1, true⟩ ⟨true, true, false⟩ "on"
        ⟨some false, some ["False","False","False","False","False","False","False","False"], [], []⟩).2
      = none ∧
    (output_switch ⟨some 1, true⟩ ⟨true, true, false⟩ "on"
        ⟨some false, some ["False","False","False","False","False","False","False","False"], [], []⟩).1.output_state
      = some true ∧
    is_on true (output_switch ⟨some 1, true⟩ ⟨true, true, false⟩ "on"
        ⟨some false, some ["False","False","False","False","False","False","False","False"], [], []⟩).1
      = some true ∧
    (output_switch ⟨some 1, true⟩ ⟨true, true, false⟩ "on"
        ⟨some false, some ["False","False","False","False","False","False","False","False"], [], []⟩).1.bus_writes
      = ([] : List Nat) ∧
    (output_switch ⟨some 1, true⟩ ⟨true, true, false⟩ "on"
        ⟨some false, some ["False","False","False","False","False","False","False","False"], [], []⟩).1.logs
      = ([] : List LogErr) ++ [LogErr.stateChange] :=
  failed_write_state_changed 1 true "on"
    ⟨some false, some ["False","False","False","False","False","False","False","False"], [], []⟩
    true false (by decide) true rfl (by decide) _ rfl

/-- C8 counterexample: when lock acquisition times out (`lock_acquire`
falsy), `output_switch` performs no I/O as claimed, but it does not fail with
any error: nothing is surfaced to the caller and nothing is even logged — the
guarded block is simply skipped and the state is returned unchanged. -/
theorem lock_timeout_cex :
    (output_switch ⟨some 1, true⟩ ⟨false, true, true⟩ "on"
        ⟨some false, some ["False","False","False","False","False","False","False","False"], [], []⟩).2
      = none ∧
    (output_switch ⟨some 1, true⟩ ⟨false, true, true⟩ "on"
        ⟨some false, some ["False","False","False","False","False","False","False","False"], [], []⟩).1
      = ⟨some false, some ["False","False","False","False","False","False","False","False"], [], []⟩ := by
  decide

/-- C8 amended: if lock acquisition times out, `output_switch` returns
silently — no error is surfaced or logged — and performs no I/O: no register
write, no file modification, no in-memory state change. -/
theorem lock_timeout_silent
    (ch : Nat) (onst : Bool) (w b : Bool) (state : String) (s : St)
    (r : St × Option PyExc)
    (hr : r = output_switch ⟨some ch, onst⟩ ⟨false, w, b⟩ state s) :
    r = (s, none) := by
  subst hr
  simp [output_switch]

/-- C8 amended witness. -/
theorem lock_timeout_silent_witness :
    output_switch ⟨some 1, true⟩ ⟨false, true, true⟩ "on"
        ⟨some false, some ["False","False","False","False","False","False","False","False"], [], []⟩
      = (⟨some false, some ["False","False","False","False","False","False","False","False"], [], []⟩,
         none) :=
  lock_timeout_silent 1 true true true "on"
    ⟨some false, some ["False","False","False","False","False","False","False","False"], [], []⟩
    _ rfl

/-- C9: when a successful `output_switch` commits a byte, every loaded slot
that is Unknown (`None`) — other than the channel being written — contributes
a physical 0 bit to the written byte. -/
theorem unknown_slot_writes_false
    (ch : Nat) (h1 : 1 ≤ ch) (h2 : ch ≤ 8) (onst : Bool)
    (state : String) (hs : state = "on" ∨ state = "off")
    (s : St) (hlen : (loaded s.file).length = 8)
    (j : Nat) (hj : j < 8) (hne : j ≠ ch - 1)
    (hunk : (loaded s.file).getD j none = none)
    (r : St × Option PyExc)
    (hr : r = output_switch ⟨some ch, onst⟩ ⟨true, true, true⟩ state s) :
    ∃ b, r.1.bus_writes = s.bus_writes ++ [b] ∧ b.testBit (7 - j) = false := by
  have hns : (if state = "on" then some onst
      else if state = "off" then some (!onst) else none)
        = some (if state = "on" then onst else !onst) := by
    rcases hs with rfl | rfl <;> simp
  rw [output_switch_success ch onst state s _ hns hlen] at hr
  subst hr
  have hsetlen : ((loaded s.file).set (ch - 1)
      (some (if state = "on" then onst else !onst))).length = 8 := by
    simp [List.length_set, hlen]
  refine ⟨portByte ((loaded s.file).set (ch - 1)
      (some (if state = "on" then onst else !onst))), rfl, ?_⟩
  obtain ⟨a0,a1,a2,a3,a4,a5,a6,a7,hL⟩ :=
    eight_elems ((loaded s.file).set (ch - 1)
      (some (if state = "on" then onst else !onst))) hsetlen
  rw [hL, portByte_testBit_eight a0 a1 a2 a3 a4 a5 a6 a7 j hj, ← hL,
    getD_set_ne (loaded s.file) hlen (ch - 1) j (by omega) hj hne _ _, hunk]
  rfl

/-- C9 witness: fresh device (all slots Unknown), channel 1 switched on, slot
3 contributes a 0 bit. -/
theorem unknown_slot_writes_false_witness :
    ∃ b, (output_switch ⟨some 1, true⟩ ⟨true, true, true⟩ "on"
        ⟨none, none, [], []⟩).1.bus_writes = ([] : List Nat) ++ [b] ∧
      b.testBit (7 - 3) = false :=
  unknown_slot_writes_false 1 (by decide) (by decide) true "on" (Or.inl rfl)
    ⟨none, none, [], []⟩ (by decide) 3 (by decide) (by decide) (by decide) _ rfl

/-- C10: for every requested state string other than `"on"` and `"off"`,
`output_switch` surfaces nothing, writes no byte to the bus, leaves the
durable state file unmodified and leaves the in-memory last-known state (and
hence `is_on`) unchanged. -/
theorem unrecognized_state_no_io
    (cfg : Config) (env : Env) (state : String) (s : St)
    (hon : state ≠ "on") (hoff : state ≠ "off")
    (r : St × Option PyExc)
    (hr : r = output_switch cfg env state s) :
    r.2 = none ∧
    r.1.output_state = s.output_state ∧
    r.1.file = s.file ∧
    r.1.bus_writes = s.bus_writes ∧
    is_on true r.1 = is_on true s := by
  subst hr
  rcases cfg with ⟨_ | ch, onst⟩
  · simp [output_switch, is_on]
  · rcases env with ⟨l, w, b⟩
    cases l
    · simp [output_switch, is_on]
    · by_cases hlen : (loaded s.file).length = 8
      · simp [output_switch, hlen, hon, hoff, is_on]
      · simp [output_switch, hlen, is_on]

/-- C10 witness: an unrecognized state string on a fully known device. -/
theorem unrecognized_state_no_io_witness :
    (output_switch ⟨some 1, true⟩ ⟨true, true, true⟩ "toggle"
        ⟨some false, some ["False","False","False","False","False","False","False","False"], [], []⟩).2
      = none ∧
    (output_switch ⟨some 1, true⟩ ⟨true, true, true⟩ "toggle"
        ⟨some false, some ["False","False","False","False","False","False","False","False"], [], []⟩).1.output_state
      = some false ∧
    (output_switch ⟨some 1, true⟩ ⟨true, true, true⟩ "toggle"
        ⟨some false, some ["False","False","False","False","False","False","False","False"], [], []⟩).1.file
      = some ["False","False","False","False","False","False","False","False"] ∧
    (output_switch ⟨some 1, true⟩ ⟨true, true, true⟩ "toggle"
        ⟨some false, some ["False","False","False","False","False","False","False","False"], [], []⟩).1.bus_writes
      = ([] : List Nat) ∧
    is_on true (output_switch ⟨some 1, true⟩ ⟨true, true, true⟩ "toggle"
        ⟨some false, some ["False","False","False","False","False","False","False","False"], [], []⟩).1
      = is_on true ⟨some false, some ["False","False","False","False","False","False","False","False"], [], []⟩ :=
  unrecognized_state_no_io ⟨some 1, true⟩ ⟨true, true, true⟩ "toggle"
    ⟨some false, some ["False","False","False","False","False","False","False","False"], [], []⟩
    (by decide) (by decide) _ rfl

end Pcf8574
